import Mathlib

/-!
Shallow embedding of the gesture-authentication core of the
Bluetooth-Messenger repository.

Numeric data is modelled over the rationals.  The population standard
deviation of a list of rationals is in general irrational, so every
function of the source that divides by a standard deviation is
parametrised by the deviation value, and theorems constrain that
parameter with the predicate IsStd (the parameter is nonnegative and its
square is the population variance).  All other code is translated
directly from the Python source:

* authenticator/authenticator.py : normalize_series, twed_distance
* authenticator/authenticate_gesture.py : authenticate_against_gestures
* authenticator/generate_gesture.py : generate_single_gesture
* authenticator/gesture_recognizer.py : register_gesture, verify_gesture
* server/user_database.py : user_exists, register_user
* server/auth_manager.py : AuthState, AuthSession, handle_username,
  start_gesture_recording, process_gesture_attempt (registration and
  verification branches), is_authenticated
* server/auth_server.py : the chat relay (handle_chat_message, send_tx)

Timestamps (created_at, last_login) and console output are not modelled;
no claim refers to them.  External effects (the sensor capture and the
dtaidistance DTW scorer, which are not part of this repository) appear
as parameters of the functions that invoke them.
-/

namespace BTMessenger

/-- A gesture trace: an ordered sequence of 2-D samples (x, y).
The second array dimension of the numpy arrays (always 2) is carried by
the pair type. -/
abbrev Trace := List (ℚ × ℚ)

/-- Arithmetic mean of a list of rationals (rational convention:
division by zero yields 0, so the mean of the empty list is 0; the
source never takes the mean of an empty axis). -/
def mean (xs : List ℚ) : ℚ := xs.sum / xs.length

/-- Population variance of a list of rationals, matching numpy std
squared: the mean of the squared deviations from the mean. -/
def variance (xs : List ℚ) : ℚ :=
  ((xs.map (fun x => (x - mean xs) ^ 2)).sum) / xs.length

/-- The real number np.std xs is characterised over the rationals:
sigma is nonnegative and its square is the population variance. -/
def IsStd (σ : ℚ) (xs : List ℚ) : Prop := 0 ≤ σ ∧ σ ^ 2 = variance xs

instance (σ : ℚ) (xs : List ℚ) : Decidable (IsStd σ xs) :=
  inferInstanceAs (Decidable (_ ∧ _))

/-- One axis of authenticator.py normalize_series: subtract the mean and
divide by the standard deviation, substituting 1 when the standard
deviation is exactly zero.  The deviation sigma is a parameter
(IsStd σ xs in the theorems). -/
def normalizeAxis (σ : ℚ) (xs : List ℚ) : List ℚ :=
  let μ := mean xs
  let s := if σ = 0 then 1 else σ
  xs.map (fun x => (x - μ) / s)

/-- authenticator.py normalize_series: an empty series is returned
unchanged; otherwise each of the two columns is normalized
independently and the columns are reassembled. -/
def normalize_series (σx σy : ℚ) (t : Trace) : Trace :=
  if t.length = 0 then t
  else List.zip (normalizeAxis σx (t.map Prod.fst))
    (normalizeAxis σy (t.map Prod.snd))

/-- generate_gesture.py generate_single_gesture: the sensor capture
(external) yields the raw trace; the function returns the normalized
trace.  This normalized value is what the registration path stores. -/
def generate_single_gesture (σx σy : ℚ) (raw : Trace) : Trace :=
  normalize_series σx σy raw

theorem normalize_series_length (σx σy : ℚ) (t : Trace) :
    (normalize_series σx σy t).length = t.length := by
  unfold normalize_series
  split
  · rfl
  · simp [normalizeAxis]

/-! ### String helpers

The Python code uses str.strip, str.lower and str.split.  The Lean
library versions of these functions are defined through well-founded
byte-position recursion and do not reduce inside the kernel, so
executable character-list versions with the same behaviour (on the
ASCII data the protocol carries) are defined here. -/

/-- Lower-case one ASCII letter (Python str.lower on protocol data). -/
def lowerChar (c : Char) : Char :=
  if 'A' ≤ c ∧ c ≤ 'Z' then Char.ofNat (c.toNat + 32) else c

/-- Python str.strip: drop whitespace from both ends. -/
def strTrim (s : String) : String :=
  ⟨((s.data.dropWhile Char.isWhitespace).reverse.dropWhile
      Char.isWhitespace).reverse⟩

/-- Python str.lower on ASCII strings. -/
def strLower (s : String) : String := ⟨s.data.map lowerChar⟩

/-- Split a character list at every occurrence of the separator. -/
def splitChar (sep : Char) : List Char → List Char → List (List Char)
  | [], acc => [acc.reverse]
  | c :: rest, acc =>
    if c = sep then acc.reverse :: splitChar sep rest []
    else splitChar sep rest (c :: acc)

/-- Python str.split(sep) with no maxsplit. -/
def strSplit (sep : Char) (s : String) : List String :=
  (splitChar sep s.data []).map String.mk

/-! ### Matcher (authenticate_gesture.py) -/

/-- Outcome of the majority vote over the per-reference pass flags:
passed_count, total_count and the aggregate accept flag. -/
structure VoteOutcome where
  passed_count : ℕ
  total_count : ℕ
  authenticated : Bool
deriving DecidableEq, Repr

/-- authenticate_gesture.py authenticate_against_gestures.  The fresh
test gesture is captured externally and each reference is scored by
dtaidistance DTW against the configured threshold; that per-reference
decision (normalize both, score, compare with 0.04) is the external
parameter passes.  An empty reference list is rejected up front with an
empty results dictionary (modelled as none); otherwise the pass flags
are counted and the vote accepts iff passed_count > total_count / 2. -/
def authenticate_against_gestures (passes : Trace → Bool)
    (gesture_list : List Trace) : Bool × Option VoteOutcome :=
  if gesture_list.isEmpty then (false, none)
  else
    let flags := gesture_list.map passes
    let passed_count := flags.count true
    let total_count := flags.length
    let is_authenticated : Bool :=
      decide ((total_count : ℚ) / 2 < (passed_count : ℚ))
    (is_authenticated, some ⟨passed_count, total_count, is_authenticated⟩)

/-- The body of the try block of gesture_recognizer.py verify_gesture,
given a result of the matcher call: the confidence is
passed_count / total_count (with the dictionary defaults passed_count 0
and total_count 1 when the matcher returned the empty results
dictionary).  In the shipped code this continuation is dead: the
matcher call itself raises before producing a result (see
authenticate_call_line_105 and verify_gesture_shipped). -/
def verify_gesture (r : Bool × Option VoteOutcome) : Bool × ℚ :=
  let passed_count : ℕ := match r.2 with | some v => v.passed_count | none => 0
  let total_count : ℕ := match r.2 with | some v => v.total_count | none => 1
  let confidence : ℚ :=
    if 0 < total_count then (passed_count : ℚ) / (total_count : ℚ) else 0
  (r.1, confidence)

/-- The matcher invocation at gesture_recognizer.py line 105 as
shipped: authenticate_against_gestures(stored_gestures, countdown=0).
The callee, authenticate_gesture.py authenticate_against_gestures,
declares the single parameter gesture_list, so binding the keyword
argument countdown fails: the interpreter raises TypeError before the
callee body runs and no matcher result is produced (none). -/
def authenticate_call_line_105 (stored_gestures : List Trace) :
    Option (Bool × Option VoteOutcome) :=
  let _ := stored_gestures
  none

/-- gesture_recognizer.py verify_gesture, real mode, as shipped: run
the try block around the matcher call; since the call raises TypeError
on every input (authenticate_call_line_105), the except handler always
returns (False, 0.0), and the dead continuation verify_gesture is
never reached. -/
def verify_gesture_shipped (stored_gestures : List Trace) : Bool × ℚ :=
  match authenticate_call_line_105 stored_gestures with
  | some r => verify_gesture r
  | none => (false, 0)

/-! ### TWED (authenticator.py twed_distance) -/

/-- Flatten a 2-D trace row-major, as numpy flatten does. -/
def flatten_trace (t : Trace) : List ℚ :=
  t.flatMap (fun q => [q.1, q.2])

/-- The TWED dynamic-programming cost table of twed_distance: base case
cost(0,0) = 0, the unreached first row and column stay at infinity, and
cell (i, j) for i, j ≥ 1 takes the minimum of the diagonal step plus
substitution cost |a i - b j| plus time penalty |i - j| * penalty and
the two one-sided steps plus the time penalty alone. -/
def twedCost (s1 s2 : List ℚ) (p : ℚ) : ℕ → ℕ → WithTop ℚ
  | 0, 0 => 0
  | 0, _ + 1 => ⊤
  | _ + 1, 0 => ⊤
  | i + 1, j + 1 =>
    let d : ℚ := |s1.getD i 0 - s2.getD j 0|
    let tp : ℚ := |(i + 1 : ℚ) - (j + 1 : ℚ)| * p
    min (twedCost s1 s2 p i j + (↑(d + tp) : WithTop ℚ))
      (min (twedCost s1 s2 p i (j + 1) + (↑tp : WithTop ℚ))
        (twedCost s1 s2 p (i + 1) j + (↑tp : WithTop ℚ)))
termination_by i j => (i, j)

/-- authenticator.py twed_distance: flatten both traces, run the
dynamic program to the corner (n, m) and divide by max(n, m). -/
def twed_distance (t1 t2 : Trace) (p : ℚ) : WithTop ℚ :=
  let s1 := flatten_trace t1
  let s2 := flatten_trace t2
  (twedCost s1 s2 p s1.length s2.length).map
    (fun c => c / ((max s1.length s2.length : ℕ) : ℚ))

/-! ### Template store (user_database.py) -/

/-- One persisted user record: display-form username, the stored
gesture list and its length (timestamps are not modelled). -/
structure UserRecord where
  username : String
  gesture_list : List Trace
  num_gestures : ℕ
deriving DecidableEq, Repr

/-- The store: an association list keyed by the lower-cased username,
in insertion order, as the JSON object of users.json. -/
abbrev UserDatabase := List (String × UserRecord)

/-- user_database.py user_exists: case-insensitive lookup. -/
def user_exists (db : UserDatabase) (username : String) : Bool :=
  (db.lookup (strLower username)).isSome

/-- user_database.py register_user: refuse if the name exists
(case-insensitively), otherwise append the new record. -/
def register_user (db : UserDatabase) (username : String)
    (gesture_list : List Trace) : UserDatabase × Bool :=
  if user_exists db username then (db, false)
  else (db ++ [(strLower username,
      ⟨username, gesture_list, gesture_list.length⟩)], true)

/-! ### Session state machine (auth_manager.py) -/

/-- auth_manager.py AuthState. -/
inductive AuthState where
  | UNAUTHENTICATED
  | WAITING_USERNAME
  | COUNTDOWN
  | RECORDING
  | VERIFYING
  | AUTHENTICATED
deriving DecidableEq, Repr

/-- auth_manager.py AuthSession, as built by AuthSession.__init__
(gesture_data is never read by the modelled paths and is omitted). -/
structure AuthSession where
  state : AuthState
  username : Option String
  is_new_user : Bool
  attempts : List (Bool × ℚ)
  current_attempt : ℕ
  max_attempts : ℕ
deriving DecidableEq, Repr

/-- A freshly constructed AuthSession. -/
def initSession : AuthSession :=
  { state := .UNAUTHENTICATED, username := none, is_new_user := false,
    attempts := [], current_attempt := 0, max_attempts := 3 }

/-- AuthenticationManager.create_session: a new session in state
WAITING_USERNAME. -/
def create_session : AuthSession :=
  { initSession with state := .WAITING_USERNAME }

/-- Status component of the handle_username response dictionary. -/
inductive UsernameStatus where
  | new_user
  | existing_user
  | error
deriving DecidableEq, Repr

/-- AuthenticationManager.handle_username for one device: any
pre-existing session for the device is removed and a fresh one created;
then the stripped username is validated (at least 2 characters), the
store is consulted for is_new_user, and the attempt counter and record
are reset.  The function returns the response status together with the
session that is registered for the device after the call. -/
def handle_username (ex : String → Bool) (pre : Option AuthSession)
    (username : String) : UsernameStatus × AuthSession :=
  let _ := pre
  let session := create_session
  let u := strTrim username
  if u.length < 2 then (.error, session)
  else
    let isNew := ! ex u
    ((if isNew then .new_user else .existing_user),
      { session with
        username := some u, is_new_user := isNew,
        current_attempt := 0, attempts := [] })

/-- AuthenticationManager.start_gesture_recording: requires only that a
session exists and carries a username; increments current_attempt and
moves to RECORDING.  Returns none where the Python returns False (no
session change). -/
def start_gesture_recording (pre : Option AuthSession) :
    Option AuthSession :=
  match pre with
  | none => none
  | some s =>
    if s.username = none then none
    else some { s with
      current_attempt := s.current_attempt + 1,
      state := .RECORDING }

/-- The attempt-result dictionary of process_gesture_attempt. -/
structure AttemptResult where
  attempt_number : ℕ
  success : Bool
  confidence : ℚ
  total_passed : ℕ
  total_attempts : ℕ
  auth_complete : Bool
  auth_success : Bool
deriving DecidableEq, Repr

/-- Verification branch of process_gesture_attempt, given the
(match, confidence) pair returned by verify_gesture: set VERIFYING,
append the attempt record, count the passed attempts, finalize when
current_attempt has reached max_attempts, with overall success iff at
least 2 attempts passed. -/
def process_verification (s : AuthSession) (mc : Bool × ℚ) :
    AuthSession × AttemptResult :=
  let s1 := { s with state := AuthState.VERIFYING }
  let attempts := s1.attempts ++ [mc]
  let total_passed := (attempts.filter (fun a => a.1)).length
  let auth_complete : Bool := s1.max_attempts ≤ s1.current_attempt
  let auth_success : Bool := 2 ≤ total_passed
  let s2 :=
    if auth_complete then
      { s1 with
        attempts := attempts,
        state := if auth_success then .AUTHENTICATED else .UNAUTHENTICATED }
    else { s1 with attempts := attempts }
  (s2, {
    attempt_number := s1.current_attempt, success := mc.1,
    confidence := mc.2, total_passed := total_passed,
    total_attempts := s1.current_attempt, auth_complete := auth_complete,
    auth_success := if auth_complete then auth_success else false })

/-- One verification trial as driven by the transport callback: start
recording (which only checks that the session has a username), then
process the captured attempt.  When recording cannot start the session
is left unchanged. -/
def verification_trial (s : AuthSession) (mc : Bool × ℚ) : AuthSession :=
  match start_gesture_recording (some s) with
  | none => s
  | some s1 => (process_verification s1 mc).1

/-- A sequence of verification trials with the given per-trial
(match, confidence) outcomes. -/
def run_trials (s : AuthSession) (l : List (Bool × ℚ)) : AuthSession :=
  l.foldl verification_trial s

/-- Outcome of one capture inside register_gesture: either a gesture
array (already normalized by generate_single_gesture) or an exception
raised during collection. -/
inductive Capture where
  | ok (g : Trace)
  | err
deriving DecidableEq, Repr

/-- gesture_recognizer.py register_gesture, real mode: collect the
samples in order; any exception or any sample whose shape is not
(160, 2) aborts immediately with (None, False); otherwise all samples
are returned with success True. -/
def register_gesture : List Capture → List Trace → Option (List Trace) × Bool
  | [], acc => (some acc, true)
  | .err :: _, _ => (none, false)
  | .ok g :: rest, acc =>
    if g.length = 160 then register_gesture rest (acc ++ [g])
    else (none, false)

/-- Registration branch of process_gesture_attempt: set VERIFYING, run
register_gesture on the three captures; on success persist the gesture
list through register_user and move to AUTHENTICATED; on failure return
the failure dictionary (the session state is not changed again and the
store is untouched). -/
def process_registration (db : UserDatabase) (s : AuthSession)
    (captures : List Capture) : UserDatabase × AuthSession × AttemptResult :=
  let s1 := { s with state := AuthState.VERIFYING }
  match register_gesture captures [] with
  | (some gl, true) =>
    if gl.isEmpty then
      (db, s1, {
        attempt_number := 1, success := false, confidence := 0,
        total_passed := 0, total_attempts := 1, auth_complete := true,
        auth_success := false })
    else
      ((register_user db (s1.username.getD "") gl).1,
        { s1 with state := .AUTHENTICATED },
        {
          attempt_number := 1, success := true, confidence := 1,
          total_passed := 1, total_attempts := 1, auth_complete := true,
          auth_success := true })
  | _ =>
    (db, s1, {
      attempt_number := 1, success := false, confidence := 0,
      total_passed := 0, total_attempts := 1, auth_complete := true,
      auth_success := false })

/-- AuthenticationManager.is_authenticated over the session table. -/
def is_authenticated (sessions : List (String × AuthSession))
    (device_id : String) : Bool :=
  match sessions.lookup device_id with
  | some s => s.state == AuthState.AUTHENTICATED
  | none => false

/-! ### Chat relay (auth_server.py) -/

/-- auth_server.py RxCharacteristic._handle_chat_message: parse
MSG:username:text with at most two splits; fewer than three parts is an
invalid format and is ignored.  The device identity is the lower-cased
username.  An unauthenticated sender gets ERROR:Not authenticated; an
authenticated one has the message re-broadcast.  The result is the
message handed to send_tx, if any. -/
def handle_chat_message (sessions : List (String × AuthSession))
    (message : String) : Option String :=
  match strSplit ':' message with
  | _ :: p1 :: p2 :: rest =>
    let username := strTrim p1
    let msg_text := strTrim (String.intercalate ":" (p2 :: rest))
    let device_id := strLower username
    if is_authenticated sessions device_id then
      some ("MSG:" ++ username ++ ":" ++ msg_text)
    else
      some "ERROR:Not authenticated"
  | _ => none

/-- auth_server.py TxCharacteristic.send_tx: there is a single shared
TX characteristic, so one notification reaches every subscribed client;
the message is delivered to all of them. -/
def send_tx (subscribers : List String) (msg : String) :
    List (String × String) :=
  subscribers.map (fun c => (c, msg))

/-- The deliveries caused by one inbound chat message. -/
def chat_deliveries (sessions : List (String × AuthSession))
    (subscribers : List String) (message : String) :
    List (String × String) :=
  match handle_chat_message sessions message with
  | some m => send_tx subscribers m
  | none => []

/-! ### Claims about the matcher -/

/-- C1: for a nonempty reference set the majority vote accepts iff
passed_count > total_count / 2, where passed_count counts the
per-reference pass flags and total_count is the number of references
(at least 1); for the empty reference set the result is the explicit
no-references rejection (accept flag false, empty results), never an
acceptance and with no division performed. -/
theorem majority_vote_spec (passes : Trace → Bool)
    (gesture_list : List Trace) :
    (gesture_list ≠ [] →
      1 ≤ gesture_list.length ∧
      (authenticate_against_gestures passes gesture_list).2 =
        some ⟨(gesture_list.map passes).count true, gesture_list.length,
          (authenticate_against_gestures passes gesture_list).1⟩ ∧
      ((authenticate_against_gestures passes gesture_list).1 = true ↔
        (gesture_list.length : ℚ) / 2 <
          ((gesture_list.map passes).count true : ℚ))) ∧
    (gesture_list = [] →
      authenticate_against_gestures passes gesture_list = (false, none)) := by
  constructor
  · intro h
    have hne : gesture_list.isEmpty = false := by
      simp [List.isEmpty_eq_false, h]
    refine ⟨?_, ?_, ?_⟩
    · cases gesture_list with
      | nil => exact absurd rfl h
      | cons a l => simp
    · simp [authenticate_against_gestures, hne]
    · simp [authenticate_against_gestures, hne]
  · intro h
    subst h
    rfl

/-- Witness for C1 at a concrete reference set of three traces of which
exactly two pass. -/
theorem majority_vote_spec_witness :
    (([[((0 : ℚ), (0 : ℚ))], [((1 : ℚ), (1 : ℚ))], []] : List Trace) ≠ []) ∧
    ((authenticate_against_gestures (fun t => !t.isEmpty)
        [[((0 : ℚ), (0 : ℚ))], [((1 : ℚ), (1 : ℚ))], []]).1 = true ↔
      (([[((0 : ℚ), (0 : ℚ))], [((1 : ℚ), (1 : ℚ))], []] : List Trace).length : ℚ) / 2 <
        ((([[((0 : ℚ), (0 : ℚ))], [((1 : ℚ), (1 : ℚ))], []] : List Trace).map
          (fun t => !t.isEmpty)).count true : ℚ)) :=
  ⟨by decide,
    ((majority_vote_spec (fun t => !t.isEmpty)
      [[((0 : ℚ), (0 : ℚ))], [((1 : ℚ), (1 : ℚ))], []]).1 (by decide)).2.2⟩

/-! ### Claims about username submission -/

/-- C3 counterexample: submitting the one-character username x while a
session mid-flow exists for the identity yields the validation error,
but the pre-existing session is not left unchanged: it is discarded and
replaced by a fresh WAITING_USERNAME session. -/
theorem handle_username_short_resets_session :
    (handle_username (fun _ => true)
        (some {
          state := AuthState.AUTHENTICATED, username := some "Alice",
          is_new_user := false, attempts := [(true, 1)],
          current_attempt := 3, max_attempts := 3 }) "x").1 =
      UsernameStatus.error ∧
    (handle_username (fun _ => true)
        (some {
          state := AuthState.AUTHENTICATED, username := some "Alice",
          is_new_user := false, attempts := [(true, 1)],
          current_attempt := 3, max_attempts := 3 }) "x").2 ≠
      { state := AuthState.AUTHENTICATED, username := some "Alice",
        is_new_user := false, attempts := [(true, 1)],
        current_attempt := 3, max_attempts := 3 } := by
  constructor
  · rfl
  · intro h
    exact absurd (congrArg AuthSession.state h) (by decide)

/-- C3 amended: a stripped username shorter than 2 characters is a
validation failure and the response is the error status; no identity or
attempt data is recorded, but the session registered for the identity
after the call is a fresh WAITING_USERNAME session (any pre-existing
session was discarded before validation), not the unchanged
pre-existing one. -/
theorem handle_username_short_validation (ex : String → Bool)
    (pre : Option AuthSession) (u : String)
    (h : (strTrim u).length < 2) :
    handle_username ex pre u = (UsernameStatus.error, create_session) := by
  simp [handle_username, h]

/-- Witness for the amended C3 at the username x. -/
theorem handle_username_short_validation_witness :
    ((strTrim "x").length < 2) ∧
    handle_username (fun _ => true)
        (some {
          state := AuthState.AUTHENTICATED, username := some "Alice",
          is_new_user := false, attempts := [(true, 1)],
          current_attempt := 3, max_attempts := 3 }) "x" =
      (UsernameStatus.error, create_session) :=
  ⟨by decide,
    handle_username_short_validation (fun _ => true)
      (some {
        state := AuthState.AUTHENTICATED, username := some "Alice",
        is_new_user := false, attempts := [(true, 1)],
        current_attempt := 3, max_attempts := 3 }) "x" (by decide)⟩

/-! ### Claims about the verification attempt limit -/

/-- C5 counterexample: after the trial flags true, false, false the
session has reached max_attempts without overall acceptance and is
UNAUTHENTICATED, yet a fourth trial is still processed and, when it
passes, flips the session to AUTHENTICATED. -/
theorem fourth_trial_can_authenticate :
    (run_trials
        { state := AuthState.WAITING_USERNAME, username := some "alice",
          is_new_user := false, attempts := [], current_attempt := 0,
          max_attempts := 3 }
        [(true, 1), (false, 0), (false, 0)]).state =
      AuthState.UNAUTHENTICATED ∧
    (run_trials
        { state := AuthState.WAITING_USERNAME, username := some "alice",
          is_new_user := false, attempts := [], current_attempt := 0,
          max_attempts := 3 }
        [(true, 1), (false, 0), (false, 0), (true, 1)]).state =
      AuthState.AUTHENTICATED := by
  constructor <;> rfl

/-- C5 amended: reaching max_attempts = 3 without overall acceptance
sets the state to UNAUTHENTICATED and retains the attempt history; the
manager however does not reject further trials: recording restarts for
any session that has a username, and a passing fourth trial (with
auth_complete still true because current_attempt exceeds max_attempts)
raises total_passed to 2 and sets the state to AUTHENTICATED. -/
theorem lockout_state_and_history (u : String) (c1 c2 c3 c4 : ℚ) :
    (run_trials
        { state := AuthState.WAITING_USERNAME, username := some u,
          is_new_user := false, attempts := [], current_attempt := 0,
          max_attempts := 3 }
        [(true, c1), (false, c2), (false, c3)]).state =
      AuthState.UNAUTHENTICATED ∧
    (run_trials
        { state := AuthState.WAITING_USERNAME, username := some u,
          is_new_user := false, attempts := [], current_attempt := 0,
          max_attempts := 3 }
        [(true, c1), (false, c2), (false, c3)]).attempts =
      [(true, c1), (false, c2), (false, c3)] ∧
    (run_trials
        { state := AuthState.WAITING_USERNAME, username := some u,
          is_new_user := false, attempts := [], current_attempt := 0,
          max_attempts := 3 }
        [(true, c1), (false, c2), (false, c3)]).current_attempt = 3 ∧
    (start_gesture_recording (some (run_trials
        { state := AuthState.WAITING_USERNAME, username := some u,
          is_new_user := false, attempts := [], current_attempt := 0,
          max_attempts := 3 }
        [(true, c1), (false, c2), (false, c3)]))).isSome = true ∧
    (run_trials
        { state := AuthState.WAITING_USERNAME, username := some u,
          is_new_user := false, attempts := [], current_attempt := 0,
          max_attempts := 3 }
        [(true, c1), (false, c2), (false, c3), (true, c4)]).state =
      AuthState.AUTHENTICATED := by
  refine ⟨?_, ?_, ?_, ?_, ?_⟩ <;>
    simp [run_trials, verification_trial, start_gesture_recording,
      process_verification]

/-! ### Claims about registration -/

/-- register_gesture aborts with success False whenever any capture in
the sequence raised or produced a sample of the wrong shape. -/
theorem register_gesture_fails_of_bad (captures : List Capture)
    (acc : List Trace)
    (h : ∃ c ∈ captures,
      c = Capture.err ∨ ∃ g, c = Capture.ok g ∧ g.length ≠ 160) :
    (register_gesture captures acc).2 = false := by
  induction captures generalizing acc with
  | nil => simp at h
  | cons c rest ih =>
    rcases h with ⟨c', hc', hbad⟩
    rcases List.mem_cons.mp hc' with rfl | hmem
    · rcases hbad with rfl | ⟨g, rfl, hg⟩
      · rfl
      · simp [register_gesture, hg]
    · cases c with
      | err => rfl
      | ok g =>
        by_cases hg : g.length = 160
        · simpa [register_gesture, hg] using ih (acc ++ [g]) ⟨c', hmem, hbad⟩
        · simp [register_gesture, hg]

/-- C4 counterexample: with a failing first capture the enrollment
aborts, the store is untouched and failure is reported, but the session
is left in the VERIFYING state, not returned to UNAUTHENTICATED. -/
theorem registration_abort_state_not_unauthenticated :
    (process_registration []
        { state := AuthState.RECORDING, username := some "bob",
          is_new_user := true, attempts := [], current_attempt := 1,
          max_attempts := 3 }
        [Capture.err, Capture.ok [], Capture.ok []]).2.1.state =
      AuthState.VERIFYING ∧
    (process_registration []
        { state := AuthState.RECORDING, username := some "bob",
          is_new_user := true, attempts := [], current_attempt := 1,
          max_attempts := 3 }
        [Capture.err, Capture.ok [], Capture.ok []]).2.1.state ≠
      AuthState.UNAUTHENTICATED ∧
    (process_registration []
        { state := AuthState.RECORDING, username := some "bob",
          is_new_user := true, attempts := [], current_attempt := 1,
          max_attempts := 3 }
        [Capture.err, Capture.ok [], Capture.ok []]).1 =
      ([] : UserDatabase) ∧
    (process_registration []
        { state := AuthState.RECORDING, username := some "bob",
          is_new_user := true, attempts := [], current_attempt := 1,
          max_attempts := 3 }
        [Capture.err, Capture.ok [], Capture.ok []]).2.2.auth_success =
      false := by
  refine ⟨rfl, by decide, rfl, rfl⟩

/-- C4 amended: if any of the three captures fails or has the wrong
shape, the whole enrollment aborts: no Template (not even a partial
one) is written to the store and the attempt reports failure; the
session however stays in the VERIFYING state set at the start of the
attempt (the code does not move it back to UNAUTHENTICATED). -/
theorem registration_abort_no_partial_template (db : UserDatabase)
    (s : AuthSession) (captures : List Capture)
    (h : ∃ c ∈ captures,
      c = Capture.err ∨ ∃ g, c = Capture.ok g ∧ g.length ≠ 160) :
    (process_registration db s captures).1 = db ∧
    (process_registration db s captures).2.1.state = AuthState.VERIFYING ∧
    (process_registration db s captures).2.2.auth_success = false := by
  have hf := register_gesture_fails_of_bad captures [] h
  rcases hreg : register_gesture captures [] with ⟨og, b⟩
  rw [hreg] at hf
  simp only at hf
  subst hf
  unfold process_registration
  rw [hreg]
  cases og <;> simp

/-- Witness for the amended C4 at a concrete failing capture list. -/
theorem registration_abort_no_partial_template_witness :
    (∃ c ∈ ([Capture.err, Capture.ok [], Capture.ok []] : List Capture),
      c = Capture.err ∨ ∃ g, c = Capture.ok g ∧ g.length ≠ 160) ∧
    (process_registration []
        { state := AuthState.RECORDING, username := some "ann",
          is_new_user := true, attempts := [], current_attempt := 1,
          max_attempts := 3 }
        [Capture.err, Capture.ok [], Capture.ok []]).1 =
      ([] : UserDatabase) :=
  ⟨⟨Capture.err, by simp, Or.inl rfl⟩,
    (registration_abort_no_partial_template []
      { state := AuthState.RECORDING, username := some "ann",
        is_new_user := true, attempts := [], current_attempt := 1,
        max_attempts := 3 }
      [Capture.err, Capture.ok [], Capture.ok []]
      ⟨Capture.err, by simp, Or.inl rfl⟩).1⟩

/-! ### Claim about the verification protocol -/

/-- C2, the code at the failing input: a verification trial never
appends the claimed (accepted, confidence = passed_count/total_count)
record.  For every stored gesture list, the shipped verify_gesture
returns (False, 0.0) because its matcher call raises TypeError (the
countdown keyword is not a parameter of
authenticate_against_gestures), so every trial appends (false, 0) and
a three-trial session always finalizes UNAUTHENTICATED; the claimed
sequence accept, reject, accept can never arise. -/
theorem verification_trials_always_fail (stored : List Trace)
    (u : String) :
    verify_gesture_shipped stored = (false, 0) ∧
    (run_trials
        { state := AuthState.WAITING_USERNAME, username := some u,
          is_new_user := false, attempts := [], current_attempt := 0,
          max_attempts := 3 }
        [verify_gesture_shipped stored, verify_gesture_shipped stored,
          verify_gesture_shipped stored]).attempts =
      [(false, 0), (false, 0), (false, 0)] ∧
    (run_trials
        { state := AuthState.WAITING_USERNAME, username := some u,
          is_new_user := false, attempts := [], current_attempt := 0,
          max_attempts := 3 }
        [verify_gesture_shipped stored, verify_gesture_shipped stored,
          verify_gesture_shipped stored]).state =
      AuthState.UNAUTHENTICATED := by
  refine ⟨rfl, ?_, ?_⟩ <;>
    simp [run_trials, verification_trial, start_gesture_recording,
      process_verification, verify_gesture_shipped,
      authenticate_call_line_105]

/-! ### Normalizer lemmas -/

theorem sum_map_center_div (xs : List ℚ) (μ s : ℚ) :
    (xs.map (fun x => (x - μ) / s)).sum = (xs.sum - xs.length * μ) / s := by
  induction xs with
  | nil => simp
  | cons a l ih =>
    simp only [List.map_cons, List.sum_cons, List.length_cons, ih]
    rw [div_add_div_same]
    congr 1
    push_cast
    ring

theorem sum_map_center_sq_div (xs : List ℚ) (μ s : ℚ) :
    (xs.map (fun x => ((x - μ) / s) ^ 2)).sum =
      (xs.map (fun x => (x - μ) ^ 2)).sum / s ^ 2 := by
  induction xs with
  | nil => simp
  | cons a l ih =>
    simp only [List.map_cons, List.sum_cons, ih]
    rw [div_pow, div_add_div_same]

theorem length_cast_ne_zero {xs : List ℚ} (h : xs ≠ []) :
    ((xs.length : ℚ)) ≠ 0 := by
  have : 0 < xs.length := List.length_pos.mpr h
  exact_mod_cast Nat.pos_iff_ne_zero.mp this

/-- The normalized axis always has mean exactly 0. -/
theorem mean_normalizeAxis (σ : ℚ) (xs : List ℚ) :
    mean (normalizeAxis σ xs) = 0 := by
  rcases eq_or_ne xs [] with rfl | hne
  · simp [normalizeAxis, mean]
  · have hn := length_cast_ne_zero hne
    simp only [normalizeAxis, mean, List.length_map]
    rw [sum_map_center_div]
    have hcancel : (xs.length : ℚ) * (xs.sum / xs.length) = xs.sum := by
      field_simp
    rw [hcancel, sub_self, zero_div, zero_div]

/-- With a nonzero standard deviation the normalized axis has variance
exactly 1. -/
theorem variance_normalizeAxis (σ : ℚ) (hσ : σ ≠ 0) (xs : List ℚ)
    (h : IsStd σ xs) (hne : xs ≠ []) :
    variance (normalizeAxis σ xs) = 1 := by
  have hn := length_cast_ne_zero hne
  have hm := mean_normalizeAxis σ xs
  unfold variance
  rw [hm]
  simp only [sub_zero]
  unfold normalizeAxis
  rw [if_neg hσ]
  simp only [List.map_map, Function.comp_def, List.length_map]
  rw [sum_map_center_sq_div]
  have hvar : (xs.map (fun x => (x - mean xs) ^ 2)).sum =
      σ ^ 2 * xs.length := by
    have h2 := h.2
    unfold variance at h2
    field_simp at h2
    linarith [h2]
  rw [hvar]
  field_simp

theorem sum_sq_zero {l : List ℚ} (h : (l.map (fun x => x ^ 2)).sum = 0) :
    ∀ x ∈ l, x = 0 := by
  induction l with
  | nil => simp
  | cons a t ih =>
    simp only [List.map_cons, List.sum_cons] at h
    have hs : 0 ≤ (t.map (fun x => x ^ 2)).sum := by
      apply List.sum_nonneg
      intro x hx
      rcases List.mem_map.mp hx with ⟨y, _, rfl⟩
      exact sq_nonneg y
    have ha : a ^ 2 = 0 := le_antisymm (by linarith [sq_nonneg a]) (sq_nonneg a)
    intro x hx
    rcases List.mem_cons.mp hx with rfl | hx
    · exact (pow_eq_zero_iff two_ne_zero).mp ha
    · exact ih (by linarith [sq_nonneg a]) x hx

/-- A zero-deviation axis is constant: every element equals the mean. -/
theorem const_of_std_zero (xs : List ℚ) (h : IsStd 0 xs) (hne : xs ≠ []) :
    ∀ x ∈ xs, x = mean xs := by
  have hn := length_cast_ne_zero hne
  have hv : variance xs = 0 := by
    have := h.2
    simpa using this.symm
  have hsum : (xs.map (fun x => (x - mean xs) ^ 2)).sum = 0 := by
    unfold variance at hv
    rcases div_eq_zero_iff.mp hv with h0 | h0
    · exact h0
    · exact absurd h0 hn
  intro x hx
  have := sum_sq_zero (l := xs.map (fun x => x - mean xs))
    (by simpa [List.map_map, Function.comp_def] using hsum)
    (x - mean xs) (List.mem_map_of_mem _ hx)
  linarith [this]

/-- A zero-deviation axis is normalized with the substitute scale 1 and
becomes all zeros. -/
theorem normalizeAxis_zero (xs : List ℚ) (h : IsStd 0 xs) (hne : xs ≠ []) :
    ∀ y ∈ normalizeAxis 0 xs, y = 0 := by
  intro y hy
  unfold normalizeAxis at hy
  simp only [if_pos rfl, List.mem_map] at hy
  rcases hy with ⟨x, hx, rfl⟩
  rw [const_of_std_zero xs h hne x hx]
  simp

theorem normalize_series_of_ne (σx σy : ℚ) (t : Trace) (h : t ≠ []) :
    normalize_series σx σy t =
      List.zip (normalizeAxis σx (t.map Prod.fst))
        (normalizeAxis σy (t.map Prod.snd)) := by
  rw [normalize_series, if_neg]
  simpa using h

theorem normalize_series_map_fst (σx σy : ℚ) (t : Trace) (h : t ≠ []) :
    (normalize_series σx σy t).map Prod.fst =
      normalizeAxis σx (t.map Prod.fst) := by
  rw [normalize_series_of_ne σx σy t h]
  apply List.map_fst_zip
  simp [normalizeAxis]

theorem normalize_series_map_snd (σx σy : ℚ) (t : Trace) (h : t ≠ []) :
    (normalize_series σx σy t).map Prod.snd =
      normalizeAxis σy (t.map Prod.snd) := by
  rw [normalize_series_of_ne σx σy t h]
  apply List.map_snd_zip
  simp [normalizeAxis]

theorem std_eq_one_of_var_one {s : ℚ} (h0 : 0 ≤ s) (h1 : s ^ 2 = 1) :
    s = 1 := by
  have hfac : (s - 1) * (s + 1) = 0 := by
    have hr : (s - 1) * (s + 1) = s ^ 2 - 1 := by ring
    rw [hr, h1, sub_self]
  rcases mul_eq_zero.mp hfac with h | h
  · linarith
  · linarith

/-- C6: for every input trace and the true per-axis standard
deviations, the Normalizer returns a trace of the same length; the
empty trace is returned unchanged; every axis with nonzero standard
deviation ends with mean within 1e-9 of 0 and standard deviation
within 1e-9 of 1 (they are exactly 0 and 1 over the rationals); and
every axis with zero standard deviation is divided by the substitute
scale 1 and is all zeros after mean subtraction. -/
theorem normalize_series_spec (t : Trace) (σx σy : ℚ)
    (hx : IsStd σx (t.map Prod.fst)) (hy : IsStd σy (t.map Prod.snd)) :
    (normalize_series σx σy t).length = t.length ∧
    (t = [] → normalize_series σx σy t = t) ∧
    (t ≠ [] → σx ≠ 0 →
      |mean ((normalize_series σx σy t).map Prod.fst)| ≤ 1 / 10 ^ 9 ∧
      ∀ s, IsStd s ((normalize_series σx σy t).map Prod.fst) →
        |s - 1| ≤ 1 / 10 ^ 9) ∧
    (t ≠ [] → σy ≠ 0 →
      |mean ((normalize_series σx σy t).map Prod.snd)| ≤ 1 / 10 ^ 9 ∧
      ∀ s, IsStd s ((normalize_series σx σy t).map Prod.snd) →
        |s - 1| ≤ 1 / 10 ^ 9) ∧
    (t ≠ [] → σx = 0 → ∀ q ∈ normalize_series σx σy t, q.1 = 0) ∧
    (t ≠ [] → σy = 0 → ∀ q ∈ normalize_series σx σy t, q.2 = 0) := by
  refine ⟨normalize_series_length σx σy t, ?_, ?_, ?_, ?_, ?_⟩
  · intro h
    subst h
    rfl
  · intro hne hσ
    rw [normalize_series_map_fst σx σy t hne]
    constructor
    · rw [mean_normalizeAxis]
      norm_num
    · intro s hs
      have hxne : t.map Prod.fst ≠ [] := by simpa using hne
      have hv := variance_normalizeAxis σx hσ (t.map Prod.fst) hx hxne
      have hs2 : s ^ 2 = 1 := by rw [hs.2, hv]
      rw [std_eq_one_of_var_one hs.1 hs2]
      norm_num
  · intro hne hσ
    rw [normalize_series_map_snd σx σy t hne]
    constructor
    · rw [mean_normalizeAxis]
      norm_num
    · intro s hs
      have hyne : t.map Prod.snd ≠ [] := by simpa using hne
      have hv := variance_normalizeAxis σy hσ (t.map Prod.snd) hy hyne
      have hs2 : s ^ 2 = 1 := by rw [hs.2, hv]
      rw [std_eq_one_of_var_one hs.1 hs2]
      norm_num
  · intro hne hσ
    subst hσ
    intro q hq
    have hxne : t.map Prod.fst ≠ [] := by simpa using hne
    apply normalizeAxis_zero (t.map Prod.fst) hx hxne
    rw [← normalize_series_map_fst 0 σy t hne]
    exact List.mem_map_of_mem Prod.fst hq
  · intro hne hσ
    subst hσ
    intro q hq
    have hyne : t.map Prod.snd ≠ [] := by simpa using hne
    apply normalizeAxis_zero (t.map Prod.snd) hy hyne
    rw [← normalize_series_map_snd σx 0 t hne]
    exact List.mem_map_of_mem Prod.snd hq

/-- Witness for C6 at the trace (0, 5), (2, 5): the x axis has standard
deviation 1, the y axis is constant with standard deviation 0. -/
theorem normalize_series_spec_witness :
    IsStd 1 (([((0 : ℚ), (5 : ℚ)), ((2 : ℚ), (5 : ℚ))] : Trace).map Prod.fst) ∧
    IsStd 0 (([((0 : ℚ), (5 : ℚ)), ((2 : ℚ), (5 : ℚ))] : Trace).map Prod.snd) ∧
    (normalize_series 1 0
        [((0 : ℚ), (5 : ℚ)), ((2 : ℚ), (5 : ℚ))]).length =
      ([((0 : ℚ), (5 : ℚ)), ((2 : ℚ), (5 : ℚ))] : Trace).length :=
  have hx : IsStd 1 (([((0 : ℚ), (5 : ℚ)), ((2 : ℚ), (5 : ℚ))] : Trace).map
      Prod.fst) := by
    constructor
    · norm_num
    · norm_num [variance, mean]
  have hy : IsStd 0 (([((0 : ℚ), (5 : ℚ)), ((2 : ℚ), (5 : ℚ))] : Trace).map
      Prod.snd) := by
    constructor
    · norm_num
    · norm_num [variance, mean]
  ⟨hx, hy,
    (normalize_series_spec [((0 : ℚ), (5 : ℚ)), ((2 : ℚ), (5 : ℚ))] 1 0
      hx hy).1⟩

theorem map_id_of_mem {l : List ℚ} {f : ℚ → ℚ}
    (h : ∀ x ∈ l, f x = x) : l.map f = l := by
  induction l with
  | nil => rfl
  | cons a t ih =>
    simp only [List.map_cons]
    rw [h a (List.mem_cons_self a t), ih]
    intro x hx
    exact h x (List.mem_cons_of_mem a hx)

/-- Re-normalizing one already normalized axis changes nothing. -/
theorem normalizeAxis_idem (xs : List ℚ) (σ σ' : ℚ) (hne : xs ≠ [])
    (h : IsStd σ xs) (h' : IsStd σ' (normalizeAxis σ xs)) :
    normalizeAxis σ' (normalizeAxis σ xs) = normalizeAxis σ xs := by
  rcases eq_or_ne σ 0 with rfl | hσ
  · have hz := normalizeAxis_zero xs h hne
    have hmean : mean (normalizeAxis 0 xs) = 0 := mean_normalizeAxis 0 xs
    conv_lhs => rw [normalizeAxis]
    apply map_id_of_mem
    intro y hy
    rw [hz y hy, hmean]
    simp
  · have hm := mean_normalizeAxis σ xs
    have hv := variance_normalizeAxis σ hσ xs h hne
    have hσ' : σ' = 1 := by
      apply std_eq_one_of_var_one h'.1
      rw [h'.2, hv]
    subst hσ'
    conv_lhs => rw [normalizeAxis]
    rw [if_neg one_ne_zero, hm]
    apply map_id_of_mem
    intro y _
    simp

/-- C10: normalization is idempotent.  For every trace (with the empty
trace and zero-variance axes included) a second application of the
Normalizer, with the standard deviations of the once-normalized trace,
returns the once-normalized trace unchanged, so re-normalizing a stored
already-normalized reference during verification changes nothing. -/
theorem normalize_idempotent (t : Trace) (σx σy σx2 σy2 : ℚ)
    (hx : IsStd σx (t.map Prod.fst)) (hy : IsStd σy (t.map Prod.snd))
    (hx2 : IsStd σx2 ((normalize_series σx σy t).map Prod.fst))
    (hy2 : IsStd σy2 ((normalize_series σx σy t).map Prod.snd)) :
    normalize_series σx2 σy2 (normalize_series σx σy t) =
      normalize_series σx σy t := by
  rcases eq_or_ne t [] with rfl | hne
  · rfl
  · have hne2 : normalize_series σx σy t ≠ [] := by
      intro h0
      apply hne
      have hlen := normalize_series_length σx σy t
      rw [h0] at hlen
      exact List.length_eq_zero.mp hlen.symm
    have hfst := normalize_series_map_fst σx σy t hne
    have hsnd := normalize_series_map_snd σx σy t hne
    rw [hfst] at hx2
    rw [hsnd] at hy2
    have hxne : t.map Prod.fst ≠ [] := by simpa using hne
    have hyne : t.map Prod.snd ≠ [] := by simpa using hne
    rw [normalize_series_of_ne σx2 σy2 _ hne2, hfst, hsnd,
      normalizeAxis_idem _ σx σx2 hxne hx hx2,
      normalizeAxis_idem _ σy σy2 hyne hy hy2,
      ← normalize_series_of_ne σx σy t hne]

/-- Witness for C10 at the trace (0, 5), (2, 5), whose normalized form
is (-1, 0), (1, 0) with standard deviations 1 and 0 again. -/
theorem normalize_idempotent_witness :
    IsStd 1 (([((0 : ℚ), (5 : ℚ)), ((2 : ℚ), (5 : ℚ))] : Trace).map Prod.fst) ∧
    IsStd 0 (([((0 : ℚ), (5 : ℚ)), ((2 : ℚ), (5 : ℚ))] : Trace).map Prod.snd) ∧
    IsStd 1 ((normalize_series 1 0
      [((0 : ℚ), (5 : ℚ)), ((2 : ℚ), (5 : ℚ))]).map Prod.fst) ∧
    IsStd 0 ((normalize_series 1 0
      [((0 : ℚ), (5 : ℚ)), ((2 : ℚ), (5 : ℚ))]).map Prod.snd) ∧
    normalize_series 1 0 (normalize_series 1 0
        [((0 : ℚ), (5 : ℚ)), ((2 : ℚ), (5 : ℚ))]) =
      normalize_series 1 0 [((0 : ℚ), (5 : ℚ)), ((2 : ℚ), (5 : ℚ))] :=
  have hnorm : normalize_series 1 0 [((0 : ℚ), (5 : ℚ)), ((2 : ℚ), (5 : ℚ))] =
      [((-1 : ℚ), (0 : ℚ)), ((1 : ℚ), (0 : ℚ))] := by
    norm_num [normalize_series, normalizeAxis, mean, List.zip]
  have hx : IsStd 1 (([((0 : ℚ), (5 : ℚ)), ((2 : ℚ), (5 : ℚ))] : Trace).map
      Prod.fst) := by
    constructor
    · norm_num
    · norm_num [variance, mean]
  have hy : IsStd 0 (([((0 : ℚ), (5 : ℚ)), ((2 : ℚ), (5 : ℚ))] : Trace).map
      Prod.snd) := by
    constructor
    · norm_num
    · norm_num [variance, mean]
  have hx2 : IsStd 1 ((normalize_series 1 0
      [((0 : ℚ), (5 : ℚ)), ((2 : ℚ), (5 : ℚ))]).map Prod.fst) := by
    rw [hnorm]
    constructor
    · norm_num
    · norm_num [variance, mean]
  have hy2 : IsStd 0 ((normalize_series 1 0
      [((0 : ℚ), (5 : ℚ)), ((2 : ℚ), (5 : ℚ))]).map Prod.snd) := by
    rw [hnorm]
    constructor
    · norm_num
    · norm_num [variance, mean]
  ⟨hx, hy, hx2, hy2,
    normalize_idempotent [((0 : ℚ), (5 : ℚ)), ((2 : ℚ), (5 : ℚ))] 1 0 1 0
      hx hy hx2 hy2⟩

/-! ### TWED lemmas -/

/-- With a nonnegative penalty every cell of the TWED table is
nonnegative (the unreached cells hold infinity). -/
theorem twedCost_nonneg (s1 s2 : List ℚ) (p : ℚ) (hp : 0 ≤ p) :
    ∀ i j, 0 ≤ twedCost s1 s2 p i j := by
  intro i
  induction i with
  | zero =>
    intro j
    cases j with
    | zero => simp [twedCost]
    | succ j => simp [twedCost]
  | succ i ih =>
    intro j
    induction j with
    | zero => simp [twedCost]
    | succ j ihj =>
      rw [twedCost]
      have hd : (0 : WithTop ℚ) ≤
          ↑(|s1.getD i 0 - s2.getD j 0| +
            |(i + 1 : ℚ) - (j + 1 : ℚ)| * p) := by
        rw [← WithTop.coe_zero, WithTop.coe_le_coe]
        have := abs_nonneg (s1.getD i 0 - s2.getD j 0)
        have := mul_nonneg (abs_nonneg ((i + 1 : ℚ) - (j + 1 : ℚ))) hp
        linarith
      have htp : (0 : WithTop ℚ) ≤ ↑(|(i + 1 : ℚ) - (j + 1 : ℚ)| * p) := by
        rw [← WithTop.coe_zero, WithTop.coe_le_coe]
        exact mul_nonneg (abs_nonneg _) hp
      refine le_min (add_nonneg (ih j) hd)
        (le_min (add_nonneg (ih (j + 1)) htp) (add_nonneg ihj htp))

/-- On identical sequences the diagonal of the TWED table is 0: the
substitution cost and the time penalty both vanish there, and every
competing cell is nonnegative. -/
theorem twedCost_self_diag (s : List ℚ) (p : ℚ) (hp : 0 ≤ p) :
    ∀ i, twedCost s s p i i = 0 := by
  intro i
  induction i with
  | zero => simp [twedCost]
  | succ i ih =>
    rw [twedCost]
    simp only [sub_self, abs_zero, zero_mul, add_zero, zero_add,
      WithTop.coe_zero, add_zero, ih]
    rw [min_eq_left]
    exact le_min (twedCost_nonneg s s p hp i (i + 1))
      (twedCost_nonneg s s p hp (i + 1) i)

/-- C7: the time-warp edit distance of every nonempty trace against
itself with penalty 1 is exactly 0: the dynamic program with base case
cost(0,0) = 0 reaches the corner with cost 0 on identical flattened
sequences, and the normalization by max(n, m) keeps it 0. -/
theorem twed_self_distance_zero (t : Trace) (_ht : t ≠ []) :
    twed_distance t t 1 = 0 := by
  show WithTop.map _ (twedCost (flatten_trace t) (flatten_trace t) 1
    (flatten_trace t).length (flatten_trace t).length) = 0
  rw [twedCost_self_diag (flatten_trace t) 1 (by norm_num)]
  rw [← WithTop.coe_zero, WithTop.map_coe, zero_div, WithTop.coe_zero]

/-- Witness for C7 at the one-sample trace (1, 2). -/
theorem twed_self_distance_zero_witness :
    (([((1 : ℚ), (2 : ℚ))] : Trace) ≠ []) ∧
    twed_distance [((1 : ℚ), (2 : ℚ))] [((1 : ℚ), (2 : ℚ))] 1 = 0 :=
  ⟨by decide, twed_self_distance_zero [((1 : ℚ), (2 : ℚ))] (by decide)⟩

/-! ### Claims about the chat relay -/

/-- C9 counterexample: with alice authenticated and the subscriber set
containing both the sender alice and the unauthenticated peer bob, the
chat message MSG:alice:hi is broadcast on the shared TX characteristic
to every subscriber: it is delivered back to the sender and also to the
unauthenticated identity. -/
theorem chat_broadcast_reaches_sender :
    chat_deliveries
        [("alice", {
          state := AuthState.AUTHENTICATED,
          username := some "alice", is_new_user := false, attempts := [],
          current_attempt := 3, max_attempts := 3 })]
        ["alice", "bob"] "MSG:alice:hi" =
      [("alice", "MSG:alice:hi"), ("bob", "MSG:alice:hi")] ∧
    is_authenticated
        [("alice", {
          state := AuthState.AUTHENTICATED,
          username := some "alice", is_new_user := false, attempts := [],
          current_attempt := 3, max_attempts := 3 })] "bob" = false := by
  constructor <;> rfl

/-- C9 amended: for an inbound chat message that parses as
MSG:name:text, an unauthenticated sender identity gets the reply
ERROR:Not authenticated and no chat relay; for an authenticated sender
the message is re-broadcast through the single shared TX
characteristic, which delivers it to every subscribed client, the
sender and unauthenticated identities included. -/
theorem chat_auth_gate_and_broadcast
    (sessions : List (String × AuthSession)) (subs : List String)
    (message p0 p1 p2 : String) (rest : List String)
    (h : strSplit ':' message = p0 :: p1 :: p2 :: rest) :
    (is_authenticated sessions (strLower (strTrim p1)) = false →
      handle_chat_message sessions message =
        some "ERROR:Not authenticated" ∧
      chat_deliveries sessions subs message =
        subs.map (fun c => (c, "ERROR:Not authenticated"))) ∧
    (is_authenticated sessions (strLower (strTrim p1)) = true →
      handle_chat_message sessions message =
        some ("MSG:" ++ strTrim p1 ++ ":" ++
          strTrim (String.intercalate ":" (p2 :: rest))) ∧
      chat_deliveries sessions subs message =
        subs.map (fun c => (c, "MSG:" ++ strTrim p1 ++ ":" ++
          strTrim (String.intercalate ":" (p2 :: rest))))) := by
  constructor
  · intro hauth
    have hm : handle_chat_message sessions message =
        some "ERROR:Not authenticated" := by
      unfold handle_chat_message
      rw [h]
      simp [hauth]
    refine ⟨hm, ?_⟩
    unfold chat_deliveries
    rw [hm]
    rfl
  · intro hauth
    have hm : handle_chat_message sessions message =
        some ("MSG:" ++ strTrim p1 ++ ":" ++
          strTrim (String.intercalate ":" (p2 :: rest))) := by
      unfold handle_chat_message
      rw [h]
      simp [hauth]
    refine ⟨hm, ?_⟩
    unfold chat_deliveries
    rw [hm]
    rfl

/-- Witness for the amended C9: alice is authenticated, so MSG:alice:hi
is broadcast to both subscribers. -/
theorem chat_auth_gate_and_broadcast_witness :
    strSplit ':' "MSG:alice:hi" = "MSG" :: "alice" :: "hi" :: [] ∧
    is_authenticated
        [("alice", {
          state := AuthState.AUTHENTICATED,
          username := some "alice", is_new_user := false, attempts := [],
          current_attempt := 3, max_attempts := 3 })]
        (strLower (strTrim "alice")) = true ∧
    chat_deliveries
        [("alice", {
          state := AuthState.AUTHENTICATED,
          username := some "alice", is_new_user := false, attempts := [],
          current_attempt := 3, max_attempts := 3 })]
        ["alice", "bob"] "MSG:alice:hi" =
      ["alice", "bob"].map (fun c => (c, "MSG:" ++ strTrim "alice" ++ ":" ++
        strTrim (String.intercalate ":" ("hi" :: [])))) :=
  ⟨by decide, by decide,
    ((chat_auth_gate_and_broadcast
      [("alice", {
        state := AuthState.AUTHENTICATED,
        username := some "alice", is_new_user := false, attempts := [],
        current_attempt := 3, max_attempts := 3 })]
      ["alice", "bob"] "MSG:alice:hi" "MSG" "alice" "hi" []
      (by decide)).2 (by decide)).2⟩

/-! ### Claims about what registration persists -/

/-- A concrete raw capture of the deployment shape (160, 2): the x axis
is 80 zeros followed by 80 twos, the y axis is constant 0.  Its x axis
has mean 1 and standard deviation exactly 1, its y axis standard
deviation 0. -/
def rawT : Trace :=
  List.replicate 80 ((0 : ℚ), (0 : ℚ)) ++ List.replicate 80 ((2 : ℚ), (0 : ℚ))

theorem lookup_append_of_none (l1 l2 : UserDatabase) (k : String)
    (h : l1.lookup k = none) : (l1 ++ l2).lookup k = l2.lookup k := by
  induction l1 with
  | nil => rfl
  | cons a t ih =>
    obtain ⟨k1, v⟩ := a
    rw [List.cons_append]
    by_cases hk : k == k1
    · simp [List.lookup, hk] at h
    · have hk2 : (k == k1) = false := by simpa using hk
      simp only [List.lookup, hk2] at h ⊢
      exact ih h

/-- The successful registration run: three correctly shaped captured
samples are stored as the new record of the user, appended to the
store, and the session moves to AUTHENTICATED. -/
theorem process_registration_success (db : UserDatabase) (s : AuthSession)
    (u : String) (hs : s.username = some u)
    (hdb : user_exists db u = false) (g1 g2 g3 : Trace)
    (h1 : g1.length = 160) (h2 : g2.length = 160) (h3 : g3.length = 160) :
    (process_registration db s
        [Capture.ok g1, Capture.ok g2, Capture.ok g3]).1 =
      db ++ [(strLower u, ⟨u, [g1, g2, g3], 3⟩)] ∧
    (process_registration db s
        [Capture.ok g1, Capture.ok g2, Capture.ok g3]).2.1.state =
      AuthState.AUTHENTICATED := by
  have hreg : register_gesture [Capture.ok g1, Capture.ok g2, Capture.ok g3]
      [] = (some [g1, g2, g3], true) := by
    simp [register_gesture, h1, h2, h3]
  unfold process_registration
  rw [hreg]
  simp [hs, register_user, hdb]

/-- C8 counterexample: registering the user bob with three captures of
the raw trace rawT persists the normalized traces, and the normalized
trace differs from the raw one, so the Template does not hold the raw
captured Traces. -/
theorem registration_persists_normalized_not_raw :
    IsStd 1 (rawT.map Prod.fst) ∧ IsStd 0 (rawT.map Prod.snd) ∧
    ((process_registration []
        { state := AuthState.RECORDING, username := some "bob",
          is_new_user := true, attempts := [], current_attempt := 1,
          max_attempts := 3 }
        [Capture.ok (generate_single_gesture 1 0 rawT),
          Capture.ok (generate_single_gesture 1 0 rawT),
          Capture.ok (generate_single_gesture 1 0 rawT)]).1).lookup "bob" =
      some ⟨"bob", [normalize_series 1 0 rawT, normalize_series 1 0 rawT,
        normalize_series 1 0 rawT], 3⟩ ∧
    normalize_series 1 0 rawT ≠ rawT := by
  have hlen : rawT.length = 160 := by simp [rawT]
  have hraw_ne : rawT ≠ [] := by
    intro h
    rw [h] at hlen
    simp at hlen
  have hxs : rawT.map Prod.fst =
      List.replicate 80 (0 : ℚ) ++ List.replicate 80 2 := by
    simp [rawT]
  have hys : rawT.map Prod.snd =
      List.replicate 80 (0 : ℚ) ++ List.replicate 80 0 := by
    simp [rawT]
  have hmeanx : mean (rawT.map Prod.fst) = 1 := by
    rw [hxs, mean, List.sum_append, List.sum_replicate, List.sum_replicate]
    norm_num
  have hvarx : variance (rawT.map Prod.fst) = 1 := by
    rw [variance, hmeanx, hxs, List.map_append, List.map_replicate,
      List.map_replicate, List.sum_append, List.sum_replicate,
      List.sum_replicate]
    norm_num
  have hmeany : mean (rawT.map Prod.snd) = 0 := by
    rw [hys, mean, List.sum_append, List.sum_replicate]
    norm_num
  have hvary : variance (rawT.map Prod.snd) = 0 := by
    rw [variance, hmeany, hys]
    simp only [sub_zero, List.map_append, List.map_replicate]
    rw [List.sum_append, List.sum_replicate]
    norm_num
  have hglen : (generate_single_gesture 1 0 rawT).length = 160 := by
    rw [generate_single_gesture, normalize_series_length, hlen]
  have hlow : strLower "bob" = "bob" := by decide
  have hps := process_registration_success []
    { state := AuthState.RECORDING, username := some "bob",
      is_new_user := true, attempts := [], current_attempt := 1,
      max_attempts := 3 } "bob" rfl rfl
    (generate_single_gesture 1 0 rawT) (generate_single_gesture 1 0 rawT)
    (generate_single_gesture 1 0 rawT) hglen hglen hglen
  refine ⟨⟨by norm_num, by rw [hvarx]; norm_num⟩,
    ⟨le_refl 0, by rw [hvary]; norm_num⟩, ?_, ?_⟩
  · rw [hps.1, hlow]
    simp [List.lookup, generate_single_gesture]
  · intro heq
    have h0 : ((normalize_series 1 0 rawT).map Prod.fst).head? =
        ((rawT.map Prod.fst)).head? := by rw [heq]
    rw [normalize_series_map_fst 1 0 rawT hraw_ne] at h0
    simp only [normalizeAxis] at h0
    rw [List.head?_map] at h0
    have hh : (rawT.map Prod.fst).head? = some 0 := by rw [hxs]; rfl
    rw [hh] at h0
    rw [hmeanx] at h0
    norm_num at h0

/-- C8 amended: the K = 3 traces written into a Template at
registration are the outputs of the Normalizer (generate_single_gesture
normalizes each captured raw Trace before returning it), not the raw
captured Traces; the matcher applies normalization again transiently
during matching. -/
theorem registration_stores_normalizer_output (db : UserDatabase)
    (s : AuthSession) (u : String) (hs : s.username = some u)
    (hdb : user_exists db u = false) (r1 r2 r3 : Trace)
    (σx1 σy1 σx2 σy2 σx3 σy3 : ℚ) (h1 : r1.length = 160)
    (h2 : r2.length = 160) (h3 : r3.length = 160) :
    ((process_registration db s
        [Capture.ok (generate_single_gesture σx1 σy1 r1),
          Capture.ok (generate_single_gesture σx2 σy2 r2),
          Capture.ok (generate_single_gesture σx3 σy3 r3)]).1).lookup
        (strLower u) =
      some ⟨u, [normalize_series σx1 σy1 r1, normalize_series σx2 σy2 r2,
        normalize_series σx3 σy3 r3], 3⟩ ∧
    (process_registration db s
        [Capture.ok (generate_single_gesture σx1 σy1 r1),
          Capture.ok (generate_single_gesture σx2 σy2 r2),
          Capture.ok (generate_single_gesture σx3 σy3 r3)]).2.1.state =
      AuthState.AUTHENTICATED := by
  have hg1 : (generate_single_gesture σx1 σy1 r1).length = 160 := by
    rw [generate_single_gesture, normalize_series_length, h1]
  have hg2 : (generate_single_gesture σx2 σy2 r2).length = 160 := by
    rw [generate_single_gesture, normalize_series_length, h2]
  have hg3 : (generate_single_gesture σx3 σy3 r3).length = 160 := by
    rw [generate_single_gesture, normalize_series_length, h3]
  have hps := process_registration_success db s u hs hdb _ _ _ hg1 hg2 hg3
  refine ⟨?_, hps.2⟩
  rw [hps.1]
  rw [lookup_append_of_none]
  · simp [List.lookup, generate_single_gesture]
  · rcases hdbl : db.lookup (strLower u) with _ | v
    · rfl
    · unfold user_exists at hdb
      rw [hdbl] at hdb
      simp at hdb

/-- Witness for the amended C8 at the concrete raw capture rawT for the
new user bob over the empty store. -/
theorem registration_stores_normalizer_output_witness :
    (some "bob" = some "bob") ∧
    user_exists [] "bob" = false ∧
    rawT.length = 160 ∧
    (process_registration []
        { state := AuthState.RECORDING, username := some "bob",
          is_new_user := true, attempts := [], current_attempt := 1,
          max_attempts := 3 }
        [Capture.ok (generate_single_gesture 1 0 rawT),
          Capture.ok (generate_single_gesture 1 0 rawT),
          Capture.ok (generate_single_gesture 1 0 rawT)]).2.1.state =
      AuthState.AUTHENTICATED :=
  ⟨rfl, rfl, by simp [rawT],
    (registration_stores_normalizer_output []
      { state := AuthState.RECORDING, username := some "bob",
        is_new_user := true, attempts := [], current_attempt := 1,
        max_attempts := 3 } "bob" rfl rfl rawT rawT rawT 1 0 1 0 1 0
      (by simp [rawT]) (by simp [rawT]) (by simp [rawT])).2⟩

end BTMessenger
